import Mathlib

/-!
Shallow embedding of buck2's deferred-computation identity, value-freezing and
resolution layer:

* `app/buck2_artifact/src/deferred/key.rs` — `DeferredHolderKey`
* `app/buck2_build_api/src/analysis/registry.rs` — `AnalysisValueStorage`,
  `FrozenAnalysisValueStorage`, `AnalysisValueFetcher`, `RecordedAnalysisValues`,
  `AnalysisRegistry::declare_output`
* `app/buck2_build_api/src/deferred/calculation.rs` — `DeferredHolder`

Starlark heap values are opaque payloads; they are modelled by type
parameters (`V` for `Value`, `C` for `StarlarkCallable`, `T` for
`TransitiveSet` handles, `L` for lambda-parameter bundles), with frozen
counterparts `FV FC FT FL`.  Fallible Rust functions returning
`anyhow::Result` are modelled with `Except BuckError`.
-/

/-- Errors (`anyhow::Error` / `buck2_error`): a message plus whether the error
was produced by the `internal_error!` / `with_internal_error` constructors. -/
structure BuckError where
  isInternal : Bool
  msg : String
deriving DecidableEq, Repr

/-- Source `internal_error!(...)` from `buck2_error`. -/
def internal_error (msg : String) : BuckError :=
  { isInternal := true, msg := msg }

/-- Source `BaseDeferredKey` (external to the supplied sources): an opaque, hashable,
displayable identity for the root of a computation; modelled as `Nat`. -/
abbrev BaseDeferredKey := Nat

mutual
/-- Source `DeferredHolderKey` from `app/buck2_artifact/src/deferred/key.rs`. -/
inductive DeferredHolderKey where
  | Base (b : BaseDeferredKey)
  | DynamicLambda (lk : DynamicLambdaResultsKey)
deriving DecidableEq

/-- Modelled from the spec: `DynamicLambdaResultsKey` (its defining module is
not among the supplied sources) pairs an owning `DeferredHolderKey` with a
local discriminator, its action-key string within that owner. -/
inductive DynamicLambdaResultsKey where
  | mk (owner : DeferredHolderKey) (localKey : String)
deriving DecidableEq
end

/-- Modelled from the spec: `DynamicLambdaResultsKey::action_key` returns the
lambda key's own action-key string (its local discriminator). -/
def DynamicLambdaResultsKey.action_key : DynamicLambdaResultsKey → String
  | .mk _ localKey => localKey

/-- Modelled from the spec: `DynamicLambdaResultsKey::owner` recurses to the
owning holder's terminal base key. -/
def DynamicLambdaResultsKey.owner_key : DynamicLambdaResultsKey → DeferredHolderKey
  | .mk o _ => o

/-- Source `DeferredHolderKey::owner` from `key.rs`: recurses through
`DynamicLambda` variants down to the terminal `Base`. -/
def DeferredHolderKey.owner : DeferredHolderKey → BaseDeferredKey
  | .Base b => b
  | .DynamicLambda (.mk o _) => DeferredHolderKey.owner o

/-- Source `DeferredHolderKey::action_key` from `key.rs`: the empty string for
`Base`, and the lambda key's own `action_key()` for `DynamicLambda`. -/
def DeferredHolderKey.action_key : DeferredHolderKey → String
  | .Base _ => ""
  | .DynamicLambda lk => lk.action_key

/-- Modelled from the spec: the external `Display` rendering of a
`DeferredHolderKey` (keys are "displayable identities"); the exact rendering
is external, only that it embeds the key matters for the claims. -/
def DeferredHolderKey.display : DeferredHolderKey → String
  | .Base b => toString b
  | .DynamicLambda (.mk o localKey) => DeferredHolderKey.display o ++ "/" ++ localKey

/-- Modelled from the spec: `Display` for `DynamicLambdaResultsKey`. -/
def DynamicLambdaResultsKey.display : DynamicLambdaResultsKey → String
  | .mk o localKey => DeferredHolderKey.display o ++ "/" ++ localKey

/-- Source `TransitiveSetIndex` (defined outside the supplied sources): a 0-based
sequence number, assigned from `transitive_sets.len()` via a checked narrowing
(`try_into`); modelled as a `Nat` checked against the 32-bit bound. -/
structure TransitiveSetIndex where
  idx : Nat
deriving DecidableEq, Repr

/-- Source `TransitiveSetKey` (constructed by `TransitiveSetKey::new(holder, index)`):
a holder key paired with a per-holder sequential index. -/
structure TransitiveSetKey where
  holder : DeferredHolderKey
  index : TransitiveSetIndex
deriving DecidableEq

/-- Modelled from the spec: `Display` for `TransitiveSetKey`. -/
def TransitiveSetKey.display (k : TransitiveSetKey) : String :=
  k.holder.display ++ "#" ++ toString k.index.idx

/-- Source `ActionKey` (external to the supplied sources): opaque identity of one
registered action; modelled as `Nat`. -/
abbrev ActionKey := Nat

namespace SmallMap

/-- Source `starlark_map::small_map::SmallMap`: an insertion-ordered map, modelled
as an association list without duplicate keys among inserts. `get` finds the
entry for a key. -/
def get {K V : Type} [DecidableEq K] (m : List (K × V)) (k : K) : Option V :=
  (m.find? (fun kv => kv.1 = k)).map (·.2)

/-- Source `SmallMap::insert`: replaces the value in place if the key is present,
otherwise appends the new entry, preserving insertion order. -/
def insert {K V : Type} [DecidableEq K] : List (K × V) → K → V → List (K × V)
  | [], k, v => [(k, v)]
  | (k', v') :: rest, k, v =>
    if k' = k then (k, v) :: rest else (k', v') :: insert rest k v

end SmallMap

/-- Source `AnalysisValueStorage<'v>` from `registry.rs`: three insertion-ordered
maps collecting opaque payload values during one evaluation. -/
structure AnalysisValueStorage (V C T L : Type) where
  action_data : List (ActionKey × (Option V × Option C))
  transitive_sets : List (TransitiveSetKey × T)
  lambda_params : List (DynamicLambdaResultsKey × L)
deriving DecidableEq

/-- Source `FrozenAnalysisValueStorage` from `registry.rs`: the same map shapes
over frozen value handles. -/
structure FrozenAnalysisValueStorage (FV FC FT FL : Type) where
  action_data : List (ActionKey × (Option FV × Option FC))
  transitive_sets : List (TransitiveSetKey × FT)
  lambda_params : List (DynamicLambdaResultsKey × FL)
deriving DecidableEq

namespace AnalysisValueStorage

variable {V C T L : Type}

/-- Source `AnalysisValueStorage::new`. -/
def new : AnalysisValueStorage V C T L :=
  { action_data := [], transitive_sets := [], lambda_params := [] }

/-- Source `u32::MAX + 1`: the first length at which
`transitive_sets.len().try_into()` (usize → 32-bit index) fails. -/
def indexBound : Nat := 4294967296

/-- The error produced by a failed `usize → u32` `try_into` (Rust's
`TryFromIntError` display string), carried into `anyhow`. -/
def tryIntoError : BuckError :=
  { isInternal := false, msg := "out of range integral type conversion attempted" }

/-- Source `AnalysisValueStorage::register_transitive_set` from `registry.rs`:
builds the key from `self_key` and the next sequential index
(`transitive_sets.len()`), invokes the constructor with that key, inserts
the constructed value under that key, and returns it. -/
def register_transitive_set (s : AnalysisValueStorage V C T L)
    (self_key : DeferredHolderKey)
    (func : TransitiveSetKey → Except BuckError T) :
    Except BuckError (T × AnalysisValueStorage V C T L) :=
  if s.transitive_sets.length < indexBound then
    let key : TransitiveSetKey := ⟨self_key, ⟨s.transitive_sets.length⟩⟩
    match func key with
    | .error e => .error e
    | .ok set =>
      .ok (set, { s with transitive_sets := SmallMap.insert s.transitive_sets key set })
  else
    .error tryIntoError

/-- Source `AnalysisValueStorage::set_action_data` from `registry.rs`. -/
def set_action_data (s : AnalysisValueStorage V C T L)
    (id : ActionKey) (ad : Option V × Option C) :
    AnalysisValueStorage V C T L :=
  { s with action_data := SmallMap.insert s.action_data id ad }

/-- Source `AnalysisValueStorage::set_lambda_params` from `registry.rs`. -/
def set_lambda_params (s : AnalysisValueStorage V C T L)
    (key : DynamicLambdaResultsKey) (lp : L) :
    AnalysisValueStorage V C T L :=
  { s with lambda_params := SmallMap.insert s.lambda_params key lp }

end AnalysisValueStorage

/-- A sequence of `register_transitive_set` calls under one holder key,
threading the storage; stops at the first failure. -/
def registerMany {V C T L : Type} (H : DeferredHolderKey) :
    List (TransitiveSetKey → Except BuckError T) →
    AnalysisValueStorage V C T L →
    Except BuckError (AnalysisValueStorage V C T L)
  | [], s => .ok s
  | f :: fs, s =>
    match s.register_transitive_set H f with
    | .error e => .error e
    | .ok (_, s') => registerMany H fs s'

/-- Sequencing a fallible conversion over a list, stopping at the first
error — the shape of `.into_iter().map(|x| Ok(...?)).collect::<Result<_>>()`. -/
def exceptMapList {α β E : Type} (f : α → Except E β) : List α → Except E (List β)
  | [] => .ok []
  | a :: rest =>
    match f a with
    | .error e => .error e
    | .ok b =>
      match exceptMapList f rest with
      | .error e => .error e
      | .ok bs => .ok (b :: bs)

/-- Freezing one map of the storage: each entry's value is converted, keys
are kept, and the first conversion failure aborts the whole collection —
`map(|(k, v)| Ok((k, v.freeze(freezer)?))).collect::<anyhow::Result<_>>()`. -/
def freezeEntries {K α β : Type} (g : α → Except BuckError β)
    (l : List (K × α)) : Except BuckError (List (K × β)) :=
  exceptMapList (fun kv => match g kv.2 with
    | .error e => .error e
    | .ok b => .ok (kv.1, b)) l

/-- The first error produced by `f` along a list, if any. -/
def firstListError {α β E : Type} (f : α → Except E β) (l : List α) : Option E :=
  l.findSome? (fun a => match f a with | .error e => some e | .ok _ => none)

/-- The `Freezer`: the per-evaluation conversion capability turning mutable
heap values into frozen handles.  Each payload kind freezes through its own
conversion (for transitive sets and lambda params this includes the
`FrozenValueTyped::new_err` downcast performed in `registry.rs`). -/
structure Freezer (V C T L FV FC FT FL : Type) where
  freezeValue : V → Except BuckError FV
  freezeCallable : C → Except BuckError FC
  freezeTransitiveSet : T → Except BuckError FT
  freezeLambdaParams : L → Except BuckError FL

namespace AnalysisValueStorage

variable {V C T L FV FC FT FL : Type}

/-- Freezing one `action_data` entry `(Option<Value>, Option<StarlarkCallable>)`:
the tuple's `Freeze` impl freezes the components in order, `Option` freezing
maps over the payload. -/
def freezeActionDatum (fr : Freezer V C T L FV FC FT FL)
    (p : Option V × Option C) : Except BuckError (Option FV × Option FC) :=
  match p.1 with
  | none =>
    match p.2 with
    | none => .ok (none, none)
    | some c =>
      match fr.freezeCallable c with
      | .error e => .error e
      | .ok fc => .ok (none, some fc)
  | some v =>
    match fr.freezeValue v with
    | .error e => .error e
    | .ok fv =>
      match p.2 with
      | none => .ok (some fv, none)
      | some c =>
        match fr.freezeCallable c with
        | .error e => .error e
        | .ok fc => .ok (some fv, some fc)

/-- Source `impl Freeze for AnalysisValueStorage` from `registry.rs`: converts every
entry of the three maps in order (`action_data`, then `transitive_sets`, then
`lambda_params`), propagating the first conversion failure; keys are kept
unchanged. -/
def freeze (s : AnalysisValueStorage V C T L)
    (fr : Freezer V C T L FV FC FT FL) :
    Except BuckError (FrozenAnalysisValueStorage FV FC FT FL) :=
  match freezeEntries (freezeActionDatum fr) s.action_data with
  | .error e => .error e
  | .ok ad =>
    match freezeEntries fr.freezeTransitiveSet s.transitive_sets with
    | .error e => .error e
    | .ok ts =>
      match freezeEntries fr.freezeLambdaParams s.lambda_params with
      | .error e => .error e
      | .ok lp => .ok { action_data := ad, transitive_sets := ts, lambda_params := lp }

/-- The first conversion failure encountered by `freeze`, in its processing
order: all of `action_data` first, then `transitive_sets`, then
`lambda_params`, each in insertion order. -/
def firstFreezeError (fr : Freezer V C T L FV FC FT FL)
    (s : AnalysisValueStorage V C T L) : Option BuckError :=
  (firstListError (fun kv => freezeActionDatum fr kv.2) s.action_data).orElse fun _ =>
    (firstListError (fun kv => fr.freezeTransitiveSet kv.2) s.transitive_sets).orElse fun _ =>
      firstListError (fun kv => fr.freezeLambdaParams kv.2) s.lambda_params

end AnalysisValueStorage

/-- The mutable starlark `Module`'s analysis extra value, as far as this
layer sees it: a write-once slot (`OnceCell`) for the `AnalysisValueStorage`
(`AnalysisExtraValue::analysis_value_storage`). -/
structure StarlarkModule (V C T L : Type) where
  analysis_value_storage : Option (AnalysisValueStorage V C T L)

/-- The `FrozenModule`'s analysis extra value: the frozen storage slot
(`FrozenAnalysisExtraValue::analysis_value_storage`). -/
structure FrozenModule (FV FC FT FL : Type) where
  analysis_value_storage : Option (FrozenAnalysisValueStorage FV FC FT FL)

/-- Source `AnalysisValueStorage::write_to_module` from `registry.rs`: commits the
storage into the module's write-once slot; if the slot is already set the
attempt is rejected with `internal_error!("analysis_value_storage is already
set")` and the module is left unchanged (the error path returns before any
mutation). -/
def AnalysisValueStorage.write_to_module {V C T L : Type}
    (s : AnalysisValueStorage V C T L) (m : StarlarkModule V C T L) :
    Except BuckError (StarlarkModule V C T L) :=
  match m.analysis_value_storage with
  | some _ => .error (internal_error "analysis_value_storage is already set")
  | none => .ok { analysis_value_storage := some s }

/-- Source `AnalysisValueFetcher` from `registry.rs`: an optional handle to a frozen
module. -/
structure AnalysisValueFetcher (FV FC FT FL : Type) where
  frozen_module : Option (FrozenModule FV FC FT FL)

namespace AnalysisValueFetcher

variable {FV FC FT FL : Type}

/-- Source `AnalysisValueFetcher::extra_value` from `registry.rs`: `Ok(None)` when
there is no frozen module; an internal error when the module exists but its
storage slot was never set; otherwise the frozen storage. -/
def extra_value (f : AnalysisValueFetcher FV FC FT FL) :
    Except BuckError (Option (FrozenAnalysisValueStorage FV FC FT FL)) :=
  match f.frozen_module with
  | none => .ok none
  | some m =>
    match m.analysis_value_storage with
    | none => .error (internal_error "analysis_value_storage not set")
    | some s => .ok (some s)

/-- Source `AnalysisValueFetcher::get_action_data` from `registry.rs`: `(None, None)`
when there is no frozen storage or the key is absent; otherwise the stored
pair (re-rooting into `OwnedFrozenValue` is the identity on the payload). -/
def get_action_data (f : AnalysisValueFetcher FV FC FT FL) (id : ActionKey) :
    Except BuckError (Option FV × Option FC) :=
  match f.extra_value with
  | .error e => .error e
  | .ok none => .ok (none, none)
  | .ok (some storage) =>
    match SmallMap.get storage.action_data id with
    | none => .ok (none, none)
    | some v => .ok v

/-- Source `AnalysisValueFetcher::get_lambda_params` from `registry.rs`: `None` when
there is no frozen storage or the key is absent; otherwise the stored bundle. -/
def get_lambda_params (f : AnalysisValueFetcher FV FC FT FL)
    (key : DynamicLambdaResultsKey) : Except BuckError (Option FL) :=
  match f.extra_value with
  | .error e => .error e
  | .ok none => .ok none
  | .ok (some storage) =>
    match SmallMap.get storage.lambda_params key with
    | none => .ok none
    | some v => .ok (some v)

end AnalysisValueFetcher

/-- Source `RecordedAnalysisValues` from `registry.rs`: the durable snapshot — an
optional frozen storage, the recorded-actions table (opaque here, type `A`),
and the recorded dynamic-lambda table (`Arc<DynamicLambda>` payloads, type
`DL`). -/
structure RecordedAnalysisValues (FV FC FT FL A DL : Type) where
  analysis_storage : Option (FrozenAnalysisValueStorage FV FC FT FL)
  actions : A
  dynamic_lambdas : List (DynamicLambdaResultsKey × DL)

namespace RecordedAnalysisValues

variable {FV FC FT FL A DL : Type}

/-- Source `RecordedAnalysisValues::lookup_transitive_set` from `registry.rs`:
`None` when there is no frozen storage, otherwise the map lookup. -/
def lookup_transitive_set (r : RecordedAnalysisValues FV FC FT FL A DL)
    (key : TransitiveSetKey) : Option FT :=
  match r.analysis_storage with
  | some values => SmallMap.get values.transitive_sets key
  | none => none

/-- Source `RecordedAnalysisValues::lookup_lambda` from `registry.rs`: absence is an
internal error naming the missing key
(`with_internal_error(|| format!("missing lambda `{}`", key))`). -/
def lookup_lambda (r : RecordedAnalysisValues FV FC FT FL A DL)
    (key : DynamicLambdaResultsKey) : Except BuckError DL :=
  match SmallMap.get r.dynamic_lambdas key with
  | some v => .ok v
  | none => .error (internal_error ("missing lambda `" ++ key.display ++ "`"))

end RecordedAnalysisValues

/-- Source `DeferredHolder` from `calculation.rs`: a tagged union over the three
result kinds; the external result wrappers (`AnalysisResult`, `BxlResult`,
`DynamicLambdaResult`) are represented by the `RecordedAnalysisValues` they
expose through `analysis_values()`. -/
inductive DeferredHolder (FV FC FT FL A DL : Type) where
  | Analysis (r : RecordedAnalysisValues FV FC FT FL A DL)
  | Bxl (r : RecordedAnalysisValues FV FC FT FL A DL)
  | DynamicLambda (r : RecordedAnalysisValues FV FC FT FL A DL)

namespace DeferredHolder

variable {FV FC FT FL A DL : Type}

/-- Source `DeferredHolder::analysis_values` from `calculation.rs`. -/
def analysis_values : DeferredHolder FV FC FT FL A DL → RecordedAnalysisValues FV FC FT FL A DL
  | .Analysis r => r
  | .Bxl r => r
  | .DynamicLambda r => r

/-- Source `DeferredHolder::lookup_transitive_set` from `calculation.rs`: delegates
to the recorded values; absence is
`internal_error!("Missing transitive set `{}`", key)`. -/
def lookup_transitive_set (h : DeferredHolder FV FC FT FL A DL)
    (key : TransitiveSetKey) : Except BuckError FT :=
  match h.analysis_values.lookup_transitive_set key with
  | some v => .ok v
  | none => .error (internal_error ("Missing transitive set `" ++ key.display ++ "`"))

/-- Source `DeferredHolder::lookup_lambda` from `calculation.rs`: delegates to the
recorded values. -/
def lookup_lambda (h : DeferredHolder FV FC FT FL A DL)
    (key : DynamicLambdaResultsKey) : Except BuckError DL :=
  h.analysis_values.lookup_lambda key

end DeferredHolder

/-- The error cases of `AnalysisRegistry::declare_output` in `registry.rs`:
the explicit empty-filename rejection (`DeclaredArtifactError`, message
"Can't declare an artifact with an empty filename component"), failures of
the external `ForwardRelativePath::new` validation, and failures of the
external `ActionsRegistry::declare_artifact`. -/
inductive DeclareOutputError where
  | DeclaredEmptyFileName
  | forwardRelPathError (msg : String)
  | declareArtifactFailure (msg : String)
deriving DecidableEq, Repr

/-- The user-facing message of each `declare_output` error
(`#[error("Can't declare an artifact with an empty filename component")]`
for `DeclaredArtifactError::DeclaredEmptyFileName`). -/
def DeclareOutputError.message : DeclareOutputError → String
  | .DeclaredEmptyFileName => "Can't declare an artifact with an empty filename component"
  | .forwardRelPathError msg => msg
  | .declareArtifactFailure msg => msg

/-- Source `AnalysisRegistry::declare_output` from `registry.rs`.  The external
collaborators are passed in: `fwdRelPathNew` models
`ForwardRelativePath::new` (path validation, `P` the path type) and
`declare_artifact` models `ActionsRegistry::declare_artifact` (`Art` the
declared-artifact type); `OT` is `OutputType` and `Loc` the optional
declaration location.  A filename of `"."` or `""` is rejected up front,
before any path validation or artifact declaration runs. -/
def declare_output {P OT Loc Art : Type}
    (fwdRelPathNew : String → Except String P)
    (declare_artifact : Option P → P → OT → Option Loc → Except String Art)
    (pfx : Option String) (filename : String)
    (output_type : OT) (declaration_location : Option Loc) :
    Except DeclareOutputError Art :=
  if filename = "." ∨ filename = "" then
    .error .DeclaredEmptyFileName
  else
    match fwdRelPathNew filename with
    | .error e => .error (.forwardRelPathError e)
    | .ok path =>
      match pfx with
      | none =>
        match declare_artifact none path output_type declaration_location with
        | .error e => .error (.declareArtifactFailure e)
        | .ok art => .ok art
      | some x =>
        match fwdRelPathNew x with
        | .error e => .error (.forwardRelPathError e)
        | .ok px =>
          match declare_artifact (some px) path output_type declaration_location with
          | .error e => .error (.declareArtifactFailure e)
          | .ok art => .ok art

/-! Helper lemmas about `SmallMap`, `exceptMapList` and sequences of
registrations. -/

theorem SmallMap.get_insert_self {K V : Type} [DecidableEq K]
    (m : List (K × V)) (k : K) (v : V) :
    SmallMap.get (SmallMap.insert m k v) k = some v := by
  induction m with
  | nil => simp [SmallMap.insert, SmallMap.get, List.find?]
  | cons kv rest ih =>
    by_cases h : kv.1 = k
    · simp [SmallMap.insert, h, SmallMap.get, List.find?]
    · simp only [SmallMap.insert]
      rw [show (kv.1, kv.2) = kv from rfl] at *
      simp only [h, if_neg]
      simpa [SmallMap.get, List.find?, h] using ih

theorem SmallMap.insert_eq_append {K V : Type} [DecidableEq K]
    (m : List (K × V)) (k : K) (v : V) (h : k ∉ m.map Prod.fst) :
    SmallMap.insert m k v = m ++ [(k, v)] := by
  induction m with
  | nil => simp [SmallMap.insert]
  | cons kv rest ih =>
    simp only [List.map_cons, List.mem_cons] at h
    push_neg at h
    simp only [SmallMap.insert]
    rw [if_neg (fun he => h.1 he.symm)]
    simp [ih h.2]

theorem SmallMap.get_cons {K V : Type} [DecidableEq K]
    (k1 : K) (v1 : V) (rest : List (K × V)) (k : K) :
    SmallMap.get ((k1, v1) :: rest) k
      = if k1 = k then some v1 else SmallMap.get rest k := by
  by_cases h : k1 = k <;> simp [SmallMap.get, List.find?, h]

theorem SmallMap.get_eq_none_of_not_mem {K V : Type} [DecidableEq K]
    (m : List (K × V)) (k : K) (h : k ∉ m.map Prod.fst) :
    SmallMap.get m k = none := by
  induction m with
  | nil => rfl
  | cons kv rest ih =>
    simp only [List.map_cons, List.mem_cons] at h
    push_neg at h
    rw [show kv = (kv.1, kv.2) from rfl, SmallMap.get_cons,
      if_neg (fun he => h.1 he.symm)]
    exact ih h.2

theorem exceptMapList_error_iff {α β E : Type} (f : α → Except E β)
    (l : List α) (e : E) :
    exceptMapList f l = .error e ↔ firstListError f l = some e := by
  induction l with
  | nil => simp [exceptMapList, firstListError, List.findSome?]
  | cons a rest ih =>
    simp only [exceptMapList, firstListError, List.findSome?_cons]
    cases hf : f a with
    | error e' => simp
    | ok b =>
      simp only
      cases hr : exceptMapList f rest with
      | error e'' =>
        simpa [hr] using ih
      | ok bs =>
        simp only [firstListError] at ih
        rw [← ih]
        simp [hr]

theorem exceptMapList_ok_firstListError_none {α β E : Type} (f : α → Except E β)
    (l : List α) (l' : List β) (h : exceptMapList f l = .ok l') :
    firstListError f l = none := by
  cases hfe : firstListError f l with
  | none => rfl
  | some e =>
    rw [← exceptMapList_error_iff] at hfe
    rw [h] at hfe
    exact absurd hfe (by simp)

theorem exceptMapList_ok_forall₂ {α β E : Type} (f : α → Except E β)
    (l : List α) (l' : List β) (h : exceptMapList f l = .ok l') :
    List.Forall₂ (fun a b => f a = .ok b) l l' := by
  induction l generalizing l' with
  | nil =>
    simp only [exceptMapList] at h
    cases h
    exact List.Forall₂.nil
  | cons a rest ih =>
    simp only [exceptMapList] at h
    cases hf : f a with
    | error e => rw [hf] at h; exact absurd h (by simp)
    | ok b =>
      rw [hf] at h
      cases hr : exceptMapList f rest with
      | error e => rw [hr] at h; exact absurd h (by simp)
      | ok bs =>
        rw [hr] at h
        cases h
        exact List.Forall₂.cons hf (ih _ hr)

theorem forall₂_fst_eq {K α β : Type} {P : K × α → K × β → Prop}
    (l : List (K × α)) (l' : List (K × β))
    (h : List.Forall₂ (fun a b => a.1 = b.1 ∧ P a b) l l') :
    l'.map Prod.fst = l.map Prod.fst := by
  induction h with
  | nil => rfl
  | cons hab _ ih => simp [ih, hab.1]

/-- Key/value correspondence through a successful `freezeEntries`. -/
theorem freezeEntries_get {K α β : Type} [DecidableEq K]
    (g : α → Except BuckError β) (l : List (K × α)) (l' : List (K × β))
    (h : freezeEntries g l = .ok l') (k : K) :
    (SmallMap.get l k = none → SmallMap.get l' k = none) ∧
    (∀ v, SmallMap.get l k = some v →
      ∃ fv, g v = .ok fv ∧ SmallMap.get l' k = some fv) := by
  unfold freezeEntries at h
  induction l generalizing l' with
  | nil =>
    simp only [exceptMapList] at h
    cases h
    exact ⟨fun _ => rfl, fun v hv => absurd hv (by simp [SmallMap.get])⟩
  | cons kv rest ih =>
    simp only [exceptMapList] at h
    cases hg : g kv.2 with
    | error e => rw [hg] at h; exact absurd h (by simp)
    | ok b =>
      rw [hg] at h
      simp only at h
      cases hr : exceptMapList (fun kv => match g kv.2 with
          | .error e => .error e
          | .ok b => .ok (kv.1, b)) rest with
      | error e => rw [hr] at h; exact absurd h (by simp)
      | ok rest' =>
        rw [hr] at h
        cases h
        obtain ⟨ihn, ihs⟩ := ih rest' hr
        by_cases hk : kv.1 = k
        · constructor
          · intro hnone
            rw [show kv = (kv.1, kv.2) from rfl, SmallMap.get_cons, if_pos hk] at hnone
            exact absurd hnone (by simp)
          · intro v hv
            rw [show kv = (kv.1, kv.2) from rfl, SmallMap.get_cons, if_pos hk] at hv
            cases hv
            exact ⟨b, hg, by rw [SmallMap.get_cons, if_pos hk]⟩
        · constructor
          · intro hnone
            rw [show kv = (kv.1, kv.2) from rfl, SmallMap.get_cons, if_neg hk] at hnone
            rw [SmallMap.get_cons, if_neg hk]
            exact ihn hnone
          · intro v hv
            rw [show kv = (kv.1, kv.2) from rfl, SmallMap.get_cons, if_neg hk] at hv
            obtain ⟨fv, hfv, hget⟩ := ihs v hv
            exact ⟨fv, hfv, by rw [SmallMap.get_cons, if_neg hk]; exact hget⟩

/-- Full characterization of a successful `register_transitive_set`. -/
theorem register_transitive_set_ok_iff {V C T L : Type}
    (s : AnalysisValueStorage V C T L) (H : DeferredHolderKey)
    (f : TransitiveSetKey → Except BuckError T) (tset : T)
    (s' : AnalysisValueStorage V C T L) :
    s.register_transitive_set H f = .ok (tset, s') ↔
      (s.transitive_sets.length < AnalysisValueStorage.indexBound ∧
       f ⟨H, ⟨s.transitive_sets.length⟩⟩ = .ok tset ∧
       s' = { s with transitive_sets :=
         SmallMap.insert s.transitive_sets ⟨H, ⟨s.transitive_sets.length⟩⟩ tset }) := by
  unfold AnalysisValueStorage.register_transitive_set
  by_cases hlen : s.transitive_sets.length < AnalysisValueStorage.indexBound
  · rw [if_pos hlen]
    dsimp only
    cases hf : f ⟨H, ⟨s.transitive_sets.length⟩⟩ with
    | error e =>
      simp [hlen]
    | ok t =>
      simp only [hlen, true_and, Except.ok.injEq, Prod.mk.injEq]
      constructor
      · rintro ⟨rfl, h2⟩
        exact ⟨rfl, h2.symm⟩
      · rintro ⟨rfl, h2⟩
        exact ⟨rfl, h2.symm⟩
  · rw [if_neg hlen]
    simp [hlen]

theorem registerMany_keys_aux {V C T L : Type} (H : DeferredHolderKey)
    (fs : List (TransitiveSetKey → Except BuckError T))
    (s s' : AnalysisValueStorage V C T L) (k : Nat)
    (hkeys : s.transitive_sets.map Prod.fst
      = (List.range k).map (fun i => TransitiveSetKey.mk H ⟨i⟩))
    (h : registerMany H fs s = .ok s') :
    s'.transitive_sets.map Prod.fst
      = (List.range (k + fs.length)).map (fun i => TransitiveSetKey.mk H ⟨i⟩) := by
  induction fs generalizing s k with
  | nil =>
    simp only [registerMany] at h
    cases h
    simpa using hkeys
  | cons f fs ih =>
    simp only [registerMany] at h
    cases hreg : s.register_transitive_set H f with
    | error e => rw [hreg] at h; exact absurd h (by simp)
    | ok res =>
      rw [hreg] at h
      obtain ⟨tset, s1⟩ := res
      obtain ⟨hlen, hf, hs1⟩ := (register_transitive_set_ok_iff s H f tset s1).1 hreg
      have hslen : s.transitive_sets.length = k := by
        have := congrArg List.length hkeys
        simpa using this
      have hnotmem : (TransitiveSetKey.mk H ⟨s.transitive_sets.length⟩)
          ∉ s.transitive_sets.map Prod.fst := by
        rw [hslen, hkeys]
        simp only [List.mem_map, List.mem_range]
        rintro ⟨i, hi, hik⟩
        have : i = k := by
          have := congrArg (fun key => key.index.idx) hik
          simpa using this
        omega
      have hs1keys : s1.transitive_sets.map Prod.fst
          = (List.range (k + 1)).map (fun i => TransitiveSetKey.mk H ⟨i⟩) := by
        rw [hs1]
        simp only
        rw [SmallMap.insert_eq_append _ _ _ hnotmem]
        rw [List.map_append, hkeys, List.range_succ, List.map_append]
        simp [hslen]
      have := ih s1 (k + 1) hs1keys h
      simpa [Nat.add_assoc, Nat.add_comm 1 fs.length] using this

/-- The error behaviour of `freezeEntries` is that of the underlying
per-value conversion, first failure in list order. -/
theorem freezeEntries_error_iff {K α β : Type}
    (g : α → Except BuckError β) (l : List (K × α)) (e : BuckError) :
    freezeEntries g l = .error e
      ↔ firstListError (fun kv => g kv.2) l = some e := by
  unfold freezeEntries
  rw [exceptMapList_error_iff]
  unfold firstListError
  induction l with
  | nil => rfl
  | cons kv rest ih =>
    simp only [List.findSome?_cons]
    cases hg : g kv.2 <;> simp [ih]

theorem freezeEntries_ok_firstListError_none {K α β : Type}
    (g : α → Except BuckError β) (l : List (K × α)) (l' : List (K × β))
    (h : freezeEntries g l = .ok l') :
    firstListError (fun kv => g kv.2) l = none := by
  cases hfe : firstListError (fun kv => g kv.2) l with
  | none => rfl
  | some e =>
    rw [← freezeEntries_error_iff] at hfe
    rw [h] at hfe
    exact absurd hfe (by simp)

theorem freezeEntries_forall₂ {K α β : Type}
    (g : α → Except BuckError β) (l : List (K × α)) (l' : List (K × β))
    (h : freezeEntries g l = .ok l') :
    List.Forall₂ (fun kv fkv => kv.1 = fkv.1 ∧ g kv.2 = .ok fkv.2) l l' := by
  unfold freezeEntries at h
  have hall := exceptMapList_ok_forall₂ _ _ _ h
  refine List.Forall₂.imp ?_ hall
  intro a b hab
  cases hg : g a.2 with
  | error e => rw [hg] at hab; exact absurd hab (by simp)
  | ok fv =>
    rw [hg] at hab
    simp only at hab
    cases hab
    exact ⟨rfl, rfl⟩

/-- Source `freeze` fails exactly on the first conversion failure, in processing
order. -/
theorem freeze_error_iff {V C T L FV FC FT FL : Type}
    (s : AnalysisValueStorage V C T L) (fr : Freezer V C T L FV FC FT FL)
    (e : BuckError) :
    s.freeze fr = .error e
      ↔ AnalysisValueStorage.firstFreezeError fr s = some e := by
  unfold AnalysisValueStorage.freeze AnalysisValueStorage.firstFreezeError
  cases h1 : freezeEntries (AnalysisValueStorage.freezeActionDatum fr) s.action_data with
  | error e1 =>
    have he1 := (freezeEntries_error_iff _ _ _).1 h1
    rw [he1]
    simp [Option.orElse]
  | ok ad =>
    have he1 := freezeEntries_ok_firstListError_none _ _ _ h1
    rw [he1]
    simp only [Option.orElse]
    cases h2 : freezeEntries fr.freezeTransitiveSet s.transitive_sets with
    | error e2 =>
      have he2 := (freezeEntries_error_iff _ _ _).1 h2
      rw [he2]
      simp
    | ok ts =>
      have he2 := freezeEntries_ok_firstListError_none _ _ _ h2
      rw [he2]
      simp only
      cases h3 : freezeEntries fr.freezeLambdaParams s.lambda_params with
      | error e3 =>
        have he3 := (freezeEntries_error_iff _ _ _).1 h3
        rw [he3]
        simp
      | ok lp =>
        have he3 := freezeEntries_ok_firstListError_none _ _ _ h3
        rw [he3]
        simp

/-! The claims. -/

/-- Claim C1: for every holder key `H`, starting from a fresh
`AnalysisValueStorage`, any sequence of `N` successful
`register_transitive_set` calls assigns the `TransitiveSetIndex` values
`0, 1, …, N-1` in call order — the stored keys are exactly
`(H,0), …, (H,N-1)` in order, no index skipped or assigned twice. -/
theorem registered_indices_contiguous {V C T L : Type}
    (H : DeferredHolderKey) (fs : List (TransitiveSetKey → Except BuckError T))
    (s' : AnalysisValueStorage V C T L)
    (h : registerMany H fs AnalysisValueStorage.new = .ok s') :
    s'.transitive_sets.map Prod.fst
      = (List.range fs.length).map (fun i => TransitiveSetKey.mk H ⟨i⟩) := by
  have := registerMany_keys_aux H fs AnalysisValueStorage.new s' 0
    (by simp [AnalysisValueStorage.new]) h
  simpa using this

theorem registered_indices_contiguous_witness :
    (AnalysisValueStorage.mk []
        [(⟨DeferredHolderKey.Base 0, ⟨0⟩⟩, 10), (⟨DeferredHolderKey.Base 0, ⟨1⟩⟩, 20)] []
      : AnalysisValueStorage Nat Nat Nat Nat).transitive_sets.map Prod.fst
      = (List.range 2).map (fun i => TransitiveSetKey.mk (DeferredHolderKey.Base 0) ⟨i⟩) :=
  registered_indices_contiguous (DeferredHolderKey.Base 0)
    [fun _ => .ok 10, fun _ => .ok 20] _ (by rfl)

/-- Claim C4: freeze is all-or-nothing.  `freeze` fails exactly when some
stored value fails to convert, and then returns the first such failure in
processing order (no partial `FrozenAnalysisValueStorage` exists, the
`Except` error carries no storage); when every conversion succeeds, the
frozen storage contains the converted form of every entry of all three maps,
keys preserved. -/
theorem freeze_all_or_nothing {V C T L FV FC FT FL : Type}
    (s : AnalysisValueStorage V C T L) (fr : Freezer V C T L FV FC FT FL) :
    (∀ e, s.freeze fr = .error e
      ↔ AnalysisValueStorage.firstFreezeError fr s = some e) ∧
    (∀ F, s.freeze fr = .ok F →
      List.Forall₂ (fun kv fkv => kv.1 = fkv.1 ∧
        AnalysisValueStorage.freezeActionDatum fr kv.2 = .ok fkv.2)
        s.action_data F.action_data ∧
      List.Forall₂ (fun kv fkv => kv.1 = fkv.1 ∧
        fr.freezeTransitiveSet kv.2 = .ok fkv.2)
        s.transitive_sets F.transitive_sets ∧
      List.Forall₂ (fun kv fkv => kv.1 = fkv.1 ∧
        fr.freezeLambdaParams kv.2 = .ok fkv.2)
        s.lambda_params F.lambda_params) := by
  constructor
  · intro e
    exact freeze_error_iff s fr e
  · intro F hF
    unfold AnalysisValueStorage.freeze at hF
    cases h1 : freezeEntries (AnalysisValueStorage.freezeActionDatum fr) s.action_data with
    | error e1 => rw [h1] at hF; simp at hF
    | ok ad =>
      rw [h1] at hF
      dsimp only at hF
      cases h2 : freezeEntries fr.freezeTransitiveSet s.transitive_sets with
      | error e2 => rw [h2] at hF; simp at hF
      | ok ts =>
        rw [h2] at hF
        dsimp only at hF
        cases h3 : freezeEntries fr.freezeLambdaParams s.lambda_params with
        | error e3 => rw [h3] at hF; simp at hF
        | ok lp =>
          rw [h3] at hF
          dsimp only at hF
          cases hF
          exact ⟨freezeEntries_forall₂ _ _ _ h1,
            freezeEntries_forall₂ _ _ _ h2,
            freezeEntries_forall₂ _ _ _ h3⟩

theorem freeze_all_or_nothing_witness :
    List.Forall₂ (fun kv fkv => kv.1 = fkv.1 ∧
        AnalysisValueStorage.freezeActionDatum
          (Freezer.mk Except.ok Except.ok Except.ok Except.ok
            : Freezer Nat Nat Nat Nat Nat Nat Nat Nat) kv.2 = .ok fkv.2)
      [(0, (some 1, none))] [(0, (some 1, none))] ∧
    List.Forall₂ (fun kv fkv => kv.1 = fkv.1 ∧
        (Freezer.mk Except.ok Except.ok Except.ok Except.ok
          : Freezer Nat Nat Nat Nat Nat Nat Nat Nat).freezeTransitiveSet kv.2 = .ok fkv.2)
      [(TransitiveSetKey.mk (DeferredHolderKey.Base 0) ⟨0⟩, 2)]
      [(TransitiveSetKey.mk (DeferredHolderKey.Base 0) ⟨0⟩, 2)] ∧
    List.Forall₂ (fun kv fkv => kv.1 = fkv.1 ∧
        (Freezer.mk Except.ok Except.ok Except.ok Except.ok
          : Freezer Nat Nat Nat Nat Nat Nat Nat Nat).freezeLambdaParams kv.2 = .ok fkv.2)
      [(DynamicLambdaResultsKey.mk (DeferredHolderKey.Base 0) "k", 3)]
      [(DynamicLambdaResultsKey.mk (DeferredHolderKey.Base 0) "k", 3)] :=
  (freeze_all_or_nothing
    (AnalysisValueStorage.mk [(0, (some 1, none))]
      [(TransitiveSetKey.mk (DeferredHolderKey.Base 0) ⟨0⟩, 2)]
      [(DynamicLambdaResultsKey.mk (DeferredHolderKey.Base 0) "k", 3)])
    (Freezer.mk Except.ok Except.ok Except.ok Except.ok)).2
    (FrozenAnalysisValueStorage.mk [(0, (some 1, none))]
      [(TransitiveSetKey.mk (DeferredHolderKey.Base 0) ⟨0⟩, 2)]
      [(DynamicLambdaResultsKey.mk (DeferredHolderKey.Base 0) "k", 3)])
    (by rfl)

/-- Claim C9: `DeferredHolderKey::Base(_).action_key()` is the empty string
for every base key, and `DeferredHolderKey::DynamicLambda(lk).action_key()`
is exactly the string returned by `lk`'s own `action_key()`. -/
theorem action_key_base_empty_lambda_delegates :
    (∀ b : BaseDeferredKey, (DeferredHolderKey.Base b).action_key = "") ∧
    (∀ lk : DynamicLambdaResultsKey,
      (DeferredHolderKey.DynamicLambda lk).action_key = lk.action_key) :=
  ⟨fun _ => rfl, fun _ => rfl⟩

/-- Decomposition of a successful `freeze` into its three successful map
conversions. -/
theorem freeze_ok_parts {V C T L FV FC FT FL : Type}
    (s : AnalysisValueStorage V C T L) (fr : Freezer V C T L FV FC FT FL)
    (F : FrozenAnalysisValueStorage FV FC FT FL)
    (h : s.freeze fr = .ok F) :
    freezeEntries (AnalysisValueStorage.freezeActionDatum fr) s.action_data
      = .ok F.action_data ∧
    freezeEntries fr.freezeTransitiveSet s.transitive_sets
      = .ok F.transitive_sets ∧
    freezeEntries fr.freezeLambdaParams s.lambda_params
      = .ok F.lambda_params := by
  unfold AnalysisValueStorage.freeze at h
  cases h1 : freezeEntries (AnalysisValueStorage.freezeActionDatum fr) s.action_data with
  | error e1 => rw [h1] at h; simp at h
  | ok ad =>
    rw [h1] at h
    dsimp only at h
    cases h2 : freezeEntries fr.freezeTransitiveSet s.transitive_sets with
    | error e2 => rw [h2] at h; simp at h
    | ok ts =>
      rw [h2] at h
      dsimp only at h
      cases h3 : freezeEntries fr.freezeLambdaParams s.lambda_params with
      | error e3 => rw [h3] at h; simp at h
      | ok lp =>
        rw [h3] at h
        dsimp only at h
        cases h
        exact ⟨rfl, rfl, rfl⟩

/-- Claim C2 (amended): for every action key `K`, the pair recorded for `K`
at freeze time — which, since `set_action_data` is last-write-wins, is the
*last* pair inserted for `K` — round-trips: after a successful freeze,
`get_action_data(K)` on a fetcher over the frozen result returns exactly the
frozen form of that pair. -/
theorem action_data_roundtrip {V C T L FV FC FT FL : Type}
    (s : AnalysisValueStorage V C T L) (fr : Freezer V C T L FV FC FT FL)
    (K : ActionKey) (p : Option V × Option C)
    (F : FrozenAnalysisValueStorage FV FC FT FL)
    (hget : SmallMap.get s.action_data K = some p)
    (hfreeze : s.freeze fr = .ok F) :
    ∃ fp, AnalysisValueStorage.freezeActionDatum fr p = .ok fp ∧
      (AnalysisValueFetcher.mk (some (FrozenModule.mk (some F)))).get_action_data K
        = .ok fp := by
  obtain ⟨h1, -, -⟩ := freeze_ok_parts s fr F hfreeze
  obtain ⟨-, hsome⟩ :=
    freezeEntries_get (AnalysisValueStorage.freezeActionDatum fr)
      s.action_data F.action_data h1 K
  obtain ⟨fp, hfp, hget'⟩ := hsome p hget
  refine ⟨fp, hfp, ?_⟩
  unfold AnalysisValueFetcher.get_action_data AnalysisValueFetcher.extra_value
  simp [hget']

theorem action_data_roundtrip_witness :
    ∃ fp, AnalysisValueStorage.freezeActionDatum
        (Freezer.mk Except.ok Except.ok Except.ok Except.ok
          : Freezer Nat Nat Nat Nat Nat Nat Nat Nat) (some 7, none) = .ok fp ∧
      (AnalysisValueFetcher.mk (some (FrozenModule.mk (some
          (FrozenAnalysisValueStorage.mk [(0, (some 7, none))]
            ([] : List (TransitiveSetKey × Nat))
            ([] : List (DynamicLambdaResultsKey × Nat))))))).get_action_data 0
        = .ok fp :=
  action_data_roundtrip
    (AnalysisValueStorage.mk [(0, (some 7, none))] [] [])
    (Freezer.mk Except.ok Except.ok Except.ok Except.ok)
    0 (some 7, none) _ (by rfl) (by rfl)

/-- Claim C2 counterexample: the pair `(some 1, none)` is inserted for key
`0` via `set_action_data` before freeze, the freeze succeeds, yet
`get_action_data(0)` does not return the frozen form of that pair — a later
`set_action_data` for the same key overwrote it (last-write-wins). -/
theorem action_data_roundtrip_counterexample :
    ((AnalysisValueStorage.new.set_action_data 0 (some 1, none)).set_action_data
        0 (some 2, none) : AnalysisValueStorage Nat Nat Nat Nat).freeze
        (Freezer.mk Except.ok Except.ok Except.ok Except.ok)
      = .ok (FrozenAnalysisValueStorage.mk [(0, (some 2, none))] [] []) ∧
    AnalysisValueStorage.freezeActionDatum
        (Freezer.mk Except.ok Except.ok Except.ok Except.ok
          : Freezer Nat Nat Nat Nat Nat Nat Nat Nat) (some 1, none)
      = .ok (some 1, none) ∧
    (AnalysisValueFetcher.mk (some (FrozenModule.mk (some
        (FrozenAnalysisValueStorage.mk [(0, (some 2, none))] [] []
          : FrozenAnalysisValueStorage Nat Nat Nat Nat))))).get_action_data 0
      = .ok (some 2, none) ∧
    ((.ok (some 2, none) : Except BuckError (Option Nat × Option Nat))
      ≠ .ok (some 1, none)) := by
  refine ⟨rfl, rfl, rfl, ?_⟩
  simp

/-- Claim C3: `get_action_data` returns `(None, None)` and
`get_lambda_params` returns `None`, in both cases without any error, both
when the fetcher has no frozen module at all and when the key is absent from
the frozen storage — the two absence causes produce the identical result. -/
theorem fetcher_absence_uniform {FV FC FT FL : Type}
    (K : ActionKey) (lk : DynamicLambdaResultsKey)
    (F : FrozenAnalysisValueStorage FV FC FT FL) :
    ((AnalysisValueFetcher.mk (none : Option (FrozenModule FV FC FT FL))).get_action_data K
      = .ok (none, none)) ∧
    ((AnalysisValueFetcher.mk (none : Option (FrozenModule FV FC FT FL))).get_lambda_params lk
      = .ok none) ∧
    (SmallMap.get F.action_data K = none →
      (AnalysisValueFetcher.mk (some (FrozenModule.mk (some F)))).get_action_data K
        = .ok (none, none)) ∧
    (SmallMap.get F.lambda_params lk = none →
      (AnalysisValueFetcher.mk (some (FrozenModule.mk (some F)))).get_lambda_params lk
        = .ok none) := by
  refine ⟨rfl, rfl, fun h => ?_, fun h => ?_⟩
  · unfold AnalysisValueFetcher.get_action_data AnalysisValueFetcher.extra_value
    simp [h]
  · unfold AnalysisValueFetcher.get_lambda_params AnalysisValueFetcher.extra_value
    simp [h]

theorem fetcher_absence_uniform_witness :
    ((AnalysisValueFetcher.mk (some (FrozenModule.mk (some
        (FrozenAnalysisValueStorage.mk ([] : List (ActionKey × (Option Nat × Option Nat)))
          ([] : List (TransitiveSetKey × Nat))
          ([] : List (DynamicLambdaResultsKey × Nat))))))).get_action_data 0
      = .ok (none, none)) ∧
    ((AnalysisValueFetcher.mk (some (FrozenModule.mk (some
        (FrozenAnalysisValueStorage.mk ([] : List (ActionKey × (Option Nat × Option Nat)))
          ([] : List (TransitiveSetKey × Nat))
          ([] : List (DynamicLambdaResultsKey × Nat))))))).get_lambda_params
        (DynamicLambdaResultsKey.mk (DeferredHolderKey.Base 0) "k")
      = .ok none) :=
  ⟨(fetcher_absence_uniform 0 (DynamicLambdaResultsKey.mk (DeferredHolderKey.Base 0) "k")
      (FrozenAnalysisValueStorage.mk [] [] [])).2.2.1 rfl,
   (fetcher_absence_uniform 0 (DynamicLambdaResultsKey.mk (DeferredHolderKey.Base 0) "k")
      (FrozenAnalysisValueStorage.mk [] [] [])).2.2.2 rfl⟩

/-- Claim C5: on a resolved `DeferredHolder`, `lookup_transitive_set` fails
with an internal error when the key is absent from the holder's
`RecordedAnalysisValues`, and `lookup_lambda` fails with an internal error
whose message names the missing key; neither absence is a silently-empty
result. -/
theorem holder_lookup_absent_internal_error {FV FC FT FL A DL : Type}
    (h : DeferredHolder FV FC FT FL A DL)
    (tk : TransitiveSetKey) (lk : DynamicLambdaResultsKey) :
    (h.analysis_values.lookup_transitive_set tk = none →
      h.lookup_transitive_set tk
        = .error (internal_error ("Missing transitive set `" ++ tk.display ++ "`"))) ∧
    (SmallMap.get h.analysis_values.dynamic_lambdas lk = none →
      h.lookup_lambda lk
        = .error (internal_error ("missing lambda `" ++ lk.display ++ "`"))) := by
  constructor
  · intro habs
    unfold DeferredHolder.lookup_transitive_set
    rw [habs]
  · intro habs
    unfold DeferredHolder.lookup_lambda RecordedAnalysisValues.lookup_lambda
    rw [habs]

theorem holder_lookup_absent_internal_error_witness :
    ((DeferredHolder.Analysis (RecordedAnalysisValues.mk none () []
        : RecordedAnalysisValues Nat Nat Nat Nat Unit Nat)).lookup_transitive_set
        (TransitiveSetKey.mk (DeferredHolderKey.Base 0) ⟨0⟩)
      = .error (internal_error
          ("Missing transitive set `"
            ++ (TransitiveSetKey.mk (DeferredHolderKey.Base 0) ⟨0⟩).display ++ "`"))) ∧
    ((DeferredHolder.Analysis (RecordedAnalysisValues.mk none () []
        : RecordedAnalysisValues Nat Nat Nat Nat Unit Nat)).lookup_lambda
        (DynamicLambdaResultsKey.mk (DeferredHolderKey.Base 0) "k")
      = .error (internal_error
          ("missing lambda `"
            ++ (DynamicLambdaResultsKey.mk (DeferredHolderKey.Base 0) "k").display ++ "`"))) :=
  ⟨(holder_lookup_absent_internal_error
      (DeferredHolder.Analysis (RecordedAnalysisValues.mk none () []))
      (TransitiveSetKey.mk (DeferredHolderKey.Base 0) ⟨0⟩)
      (DynamicLambdaResultsKey.mk (DeferredHolderKey.Base 0) "k")).1 rfl,
   (holder_lookup_absent_internal_error
      (DeferredHolder.Analysis (RecordedAnalysisValues.mk none () []))
      (TransitiveSetKey.mk (DeferredHolderKey.Base 0) ⟨0⟩)
      (DynamicLambdaResultsKey.mk (DeferredHolderKey.Base 0) "k")).2 rfl⟩

/-- Claim C6 (amended): committing the mutable value storage to the module's
slot is write-once — a second `write_to_module` into a module whose slot is
already set is rejected with the internal error "analysis_value_storage is
already set" (the spec paraphrases this as "storage already set"), and, the
rejection returning before any mutation, the first committed storage is left
unchanged. -/
theorem write_to_module_write_once {V C T L : Type}
    (s s0 : AnalysisValueStorage V C T L) (m : StarlarkModule V C T L)
    (h : m.analysis_value_storage = some s0) :
    s.write_to_module m
      = .error (internal_error "analysis_value_storage is already set")
    ∧ m.analysis_value_storage = some s0 := by
  unfold AnalysisValueStorage.write_to_module
  rw [h]
  exact ⟨rfl, rfl⟩

theorem write_to_module_write_once_witness :
    ((AnalysisValueStorage.new : AnalysisValueStorage Nat Nat Nat Nat).write_to_module
        (StarlarkModule.mk (some AnalysisValueStorage.new))
      = .error (internal_error "analysis_value_storage is already set"))
    ∧ (StarlarkModule.mk (some AnalysisValueStorage.new)
        : StarlarkModule Nat Nat Nat Nat).analysis_value_storage
      = some AnalysisValueStorage.new :=
  write_to_module_write_once AnalysisValueStorage.new AnalysisValueStorage.new
    (StarlarkModule.mk (some AnalysisValueStorage.new)) rfl

/-- Claim C6 counterexample: the rejection's message is
"analysis_value_storage is already set", not the literal "storage already
set" quoted by the claim. -/
theorem write_to_module_message_counterexample :
    ((AnalysisValueStorage.new : AnalysisValueStorage Nat Nat Nat Nat).write_to_module
        (StarlarkModule.mk (some AnalysisValueStorage.new))
      = .error (internal_error "analysis_value_storage is already set")) ∧
    "analysis_value_storage is already set" ≠ "storage already set" ∧
    ((AnalysisValueStorage.new : AnalysisValueStorage Nat Nat Nat Nat).write_to_module
        (StarlarkModule.mk (some AnalysisValueStorage.new))
      ≠ .error (internal_error "storage already set")) := by
  refine ⟨rfl, by decide, ?_⟩
  intro hcontra
  rw [show (AnalysisValueStorage.new : AnalysisValueStorage Nat Nat Nat Nat).write_to_module
      (StarlarkModule.mk (some AnalysisValueStorage.new))
    = .error (internal_error "analysis_value_storage is already set") from rfl] at hcontra
  simp only [Except.error.injEq, internal_error, BuckError.mk.injEq] at hcontra
  exact absurd hcontra.2 (by decide)

/-- Claim C8: a successful `register_transitive_set` builds the key from the
holder key and the next sequential index, invokes the constructor with
exactly that key (the constructor's value at that key is the stored result),
stores the constructed value under that same key, and returns that same
value. -/
theorem register_transitive_set_contract {V C T L : Type}
    (s : AnalysisValueStorage V C T L) (H : DeferredHolderKey)
    (f : TransitiveSetKey → Except BuckError T) (tset : T)
    (s' : AnalysisValueStorage V C T L) :
    (s.register_transitive_set H f = .ok (tset, s') ↔
      (s.transitive_sets.length < AnalysisValueStorage.indexBound ∧
       f ⟨H, ⟨s.transitive_sets.length⟩⟩ = .ok tset ∧
       s' = { s with transitive_sets :=
         SmallMap.insert s.transitive_sets ⟨H, ⟨s.transitive_sets.length⟩⟩ tset })) ∧
    (s.register_transitive_set H f = .ok (tset, s') →
      SmallMap.get s'.transitive_sets ⟨H, ⟨s.transitive_sets.length⟩⟩ = some tset) := by
  constructor
  · exact register_transitive_set_ok_iff s H f tset s'
  · intro h
    obtain ⟨-, -, hs'⟩ := (register_transitive_set_ok_iff s H f tset s').1 h
    rw [hs']
    exact SmallMap.get_insert_self _ _ _

theorem register_transitive_set_contract_witness :
    SmallMap.get
      (AnalysisValueStorage.mk ([] : List (ActionKey × (Option Nat × Option Nat)))
        [(TransitiveSetKey.mk (DeferredHolderKey.Base 5) ⟨0⟩, 42)]
        ([] : List (DynamicLambdaResultsKey × Nat))).transitive_sets
      (TransitiveSetKey.mk (DeferredHolderKey.Base 5) ⟨0⟩) = some 42 :=
  (register_transitive_set_contract AnalysisValueStorage.new (DeferredHolderKey.Base 5)
    (fun _ => .ok 42) 42
    (AnalysisValueStorage.mk [] [(TransitiveSetKey.mk (DeferredHolderKey.Base 5) ⟨0⟩, 42)] [])).2
    (by rfl)

/-- Claim C10: `declare_output` rejects a filename of `"."` or `""` with
`DeclaredArtifactError::DeclaredEmptyFileName` ("Can't declare an artifact
with an empty filename component") before any validation or declaration runs
(the result is that error for *every* path validator and artifact-declaring
function); for any other filename that error branch is never taken. -/
theorem declare_output_empty_filename {P OT Loc Art : Type}
    (fwdRelPathNew : String → Except String P)
    (declare_artifact : Option P → P → OT → Option Loc → Except String Art)
    (pfx : Option String) (filename : String)
    (output_type : OT) (declaration_location : Option Loc) :
    ((filename = "." ∨ filename = "") →
      declare_output fwdRelPathNew declare_artifact pfx filename
          output_type declaration_location
        = .error .DeclaredEmptyFileName) ∧
    (¬(filename = "." ∨ filename = "") →
      declare_output fwdRelPathNew declare_artifact pfx filename
          output_type declaration_location
        ≠ .error .DeclaredEmptyFileName) ∧
    DeclareOutputError.message .DeclaredEmptyFileName
      = "Can't declare an artifact with an empty filename component" := by
  refine ⟨fun h => ?_, fun h => ?_, rfl⟩
  · unfold declare_output
    rw [if_pos h]
  · unfold declare_output
    rw [if_neg h]
    cases hp : fwdRelPathNew filename with
    | error e => simp [hp]
    | ok path =>
      cases pfx with
      | none =>
        cases hd : declare_artifact none path output_type declaration_location <;>
          simp [hp, hd]
      | some x =>
        cases hx : fwdRelPathNew x with
        | error e => simp [hp, hx]
        | ok px =>
          cases hd : declare_artifact (some px) path output_type declaration_location <;>
            simp [hp, hx, hd]

theorem declare_output_empty_filename_witness :
    (declare_output (fun fn => .ok fn) (fun _ p _ _ => .ok p) none "."
        (0 : Nat) (none : Option Nat)
      = .error .DeclaredEmptyFileName) ∧
    (declare_output (fun fn => .ok fn) (fun _ p _ _ => .ok p) none "out.txt"
        (0 : Nat) (none : Option Nat)
      ≠ .error .DeclaredEmptyFileName) :=
  ⟨(declare_output_empty_filename (fun fn => .ok fn) (fun _ p _ _ => .ok p)
      none "." 0 none).1 (by decide),
   (declare_output_empty_filename (fun fn => .ok fn) (fun _ p _ _ => .ok p)
      none "out.txt" 0 none).2.1 (by decide)⟩

/-- Claim C7: if holder `H` registers transitive sets `A` then `B` from a
fresh storage, their keys are `(H,0)` and `(H,1)`; after a successful
freeze, looking up `(H,1)` in the snapshot of `H`'s own storage returns the
frozen form of `B`, while looking up `(H,1)` in any snapshot produced by a
different holder `H2`'s registrations returns "not found" (`none`), not
`H2`'s value at index 1. -/
theorem register_two_freeze_scenario {V C T L FV FC FT FL Act DL : Type}
    (H H2 : DeferredHolderKey) (hne : H ≠ H2)
    (fA fB : TransitiveSetKey → Except BuckError T) (tsA tsB : T)
    (s1 s2 : AnalysisValueStorage V C T L)
    (hA : AnalysisValueStorage.new.register_transitive_set H fA = .ok (tsA, s1))
    (hB : s1.register_transitive_set H fB = .ok (tsB, s2)) :
    s2.transitive_sets.map Prod.fst
      = [TransitiveSetKey.mk H ⟨0⟩, TransitiveSetKey.mk H ⟨1⟩] ∧
    (∀ (fr : Freezer V C T L FV FC FT FL)
       (F : FrozenAnalysisValueStorage FV FC FT FL),
      s2.freeze fr = .ok F →
      ∃ fb, fr.freezeTransitiveSet tsB = .ok fb ∧
        ∀ (acts : Act) (dls : List (DynamicLambdaResultsKey × DL)),
          (RecordedAnalysisValues.mk (some F) acts dls).lookup_transitive_set
            (TransitiveSetKey.mk H ⟨1⟩) = some fb) ∧
    (∀ (gs : List (TransitiveSetKey → Except BuckError T))
       (t2 : AnalysisValueStorage V C T L)
       (fr2 : Freezer V C T L FV FC FT FL)
       (F2 : FrozenAnalysisValueStorage FV FC FT FL),
      registerMany H2 gs AnalysisValueStorage.new = .ok t2 →
      t2.freeze fr2 = .ok F2 →
      ∀ (acts : Act) (dls : List (DynamicLambdaResultsKey × DL)),
        (RecordedAnalysisValues.mk (some F2) acts dls).lookup_transitive_set
          (TransitiveSetKey.mk H ⟨1⟩) = none) := by
  obtain ⟨-, hfA, hs1⟩ := (register_transitive_set_ok_iff _ H fA tsA s1).1 hA
  obtain ⟨-, hfB, hs2⟩ := (register_transitive_set_ok_iff s1 H fB tsB s2).1 hB
  have hne01 : (TransitiveSetKey.mk H ⟨0⟩) ≠ (TransitiveSetKey.mk H ⟨1⟩) := by
    intro hcontra
    have := congrArg (fun k => k.index.idx) hcontra
    simp at this
  have hs1ts : s1.transitive_sets = [(TransitiveSetKey.mk H ⟨0⟩, tsA)] := by
    rw [hs1]
    rfl
  have hs2ts : s2.transitive_sets
      = [(TransitiveSetKey.mk H ⟨0⟩, tsA), (TransitiveSetKey.mk H ⟨1⟩, tsB)] := by
    rw [hs2]
    simp only [hs1ts]
    simp only [SmallMap.insert, List.length_cons, List.length_nil]
    rw [if_neg hne01]
  refine ⟨by rw [hs2ts]; rfl, ?_, ?_⟩
  · intro fr F hfr
    obtain ⟨-, hts, -⟩ := freeze_ok_parts s2 fr F hfr
    have hgetB : SmallMap.get s2.transitive_sets (TransitiveSetKey.mk H ⟨1⟩)
        = some tsB := by
      rw [hs2ts, SmallMap.get_cons, if_neg hne01, SmallMap.get_cons, if_pos rfl]
    obtain ⟨fb, hfb, hgf⟩ :=
      (freezeEntries_get fr.freezeTransitiveSet s2.transitive_sets
        F.transitive_sets hts (TransitiveSetKey.mk H ⟨1⟩)).2 tsB hgetB
    refine ⟨fb, hfb, fun acts dls => ?_⟩
    unfold RecordedAnalysisValues.lookup_transitive_set
    exact hgf
  · intro gs t2 fr2 F2 hreg hfr2 acts dls
    have hkeys := registerMany_keys_aux H2 gs AnalysisValueStorage.new t2 0
      (by simp [AnalysisValueStorage.new]) hreg
    obtain ⟨-, hts2, -⟩ := freeze_ok_parts t2 fr2 F2 hfr2
    have hfst := forall₂_fst_eq _ _ (freezeEntries_forall₂ _ _ _ hts2)
    have hnot : TransitiveSetKey.mk H ⟨1⟩ ∉ F2.transitive_sets.map Prod.fst := by
      rw [hfst, hkeys]
      simp only [List.mem_map, List.mem_range]
      rintro ⟨i, -, hik⟩
      exact hne (congrArg TransitiveSetKey.holder hik).symm
    have hnone := SmallMap.get_eq_none_of_not_mem _ _ hnot
    unfold RecordedAnalysisValues.lookup_transitive_set
    exact hnone

theorem register_two_freeze_scenario_witness :
    (AnalysisValueStorage.mk ([] : List (ActionKey × (Option Nat × Option Nat)))
       [(TransitiveSetKey.mk (DeferredHolderKey.Base 0) ⟨0⟩, 10),
        (TransitiveSetKey.mk (DeferredHolderKey.Base 0) ⟨1⟩, 20)]
       ([] : List (DynamicLambdaResultsKey × Nat))).transitive_sets.map Prod.fst
      = [TransitiveSetKey.mk (DeferredHolderKey.Base 0) ⟨0⟩,
         TransitiveSetKey.mk (DeferredHolderKey.Base 0) ⟨1⟩] ∧
    (RecordedAnalysisValues.mk (some (FrozenAnalysisValueStorage.mk []
        [(TransitiveSetKey.mk (DeferredHolderKey.Base 0) ⟨0⟩, 10),
         (TransitiveSetKey.mk (DeferredHolderKey.Base 0) ⟨1⟩, 20)] []
        : FrozenAnalysisValueStorage Nat Nat Nat Nat)) ()
        ([] : List (DynamicLambdaResultsKey × Nat))).lookup_transitive_set
      (TransitiveSetKey.mk (DeferredHolderKey.Base 0) ⟨1⟩) = some 20 ∧
    (RecordedAnalysisValues.mk (some (FrozenAnalysisValueStorage.mk []
        [(TransitiveSetKey.mk (DeferredHolderKey.Base 1) ⟨0⟩, 30),
         (TransitiveSetKey.mk (DeferredHolderKey.Base 1) ⟨1⟩, 40)] []
        : FrozenAnalysisValueStorage Nat Nat Nat Nat)) ()
        ([] : List (DynamicLambdaResultsKey × Nat))).lookup_transitive_set
      (TransitiveSetKey.mk (DeferredHolderKey.Base 0) ⟨1⟩) = none := by
  have h := @register_two_freeze_scenario Nat Nat Nat Nat Nat Nat Nat Nat Unit Nat
    (DeferredHolderKey.Base 0)
    (DeferredHolderKey.Base 1) (by decide)
    (fun _ => .ok 10) (fun _ => .ok 20) 10 20
    (AnalysisValueStorage.mk []
      [(TransitiveSetKey.mk (DeferredHolderKey.Base 0) ⟨0⟩, 10)] [])
    (AnalysisValueStorage.mk []
      [(TransitiveSetKey.mk (DeferredHolderKey.Base 0) ⟨0⟩, 10),
       (TransitiveSetKey.mk (DeferredHolderKey.Base 0) ⟨1⟩, 20)] [])
    (by rfl) (by rfl)
  refine ⟨h.1, ?_, ?_⟩
  · obtain ⟨fb, hfb, hl⟩ := h.2.1
      (Freezer.mk Except.ok Except.ok Except.ok Except.ok)
      (FrozenAnalysisValueStorage.mk []
        [(TransitiveSetKey.mk (DeferredHolderKey.Base 0) ⟨0⟩, 10),
         (TransitiveSetKey.mk (DeferredHolderKey.Base 0) ⟨1⟩, 20)] [])
      (by rfl)
    have hfb' : (20 : Nat) = fb := by injection hfb
    subst hfb'
    exact hl () []
  · exact h.2.2 [fun _ => .ok 30, fun _ => .ok 40]
      (AnalysisValueStorage.mk []
        [(TransitiveSetKey.mk (DeferredHolderKey.Base 1) ⟨0⟩, 30),
         (TransitiveSetKey.mk (DeferredHolderKey.Base 1) ⟨1⟩, 40)] [])
      (Freezer.mk Except.ok Except.ok Except.ok Except.ok)
      (FrozenAnalysisValueStorage.mk []
        [(TransitiveSetKey.mk (DeferredHolderKey.Base 1) ⟨0⟩, 30),
         (TransitiveSetKey.mk (DeferredHolderKey.Base 1) ⟨1⟩, 40)] [])
      (by rfl) (by rfl) () []
